import Mathlib

/-! Formal model of GSearch (src/Gsearch.py): the advanced-query builder
(`SearchParts.build_query`), the URL-preview builder (`update_preview` with
its `tbm`, `tbs` and `cr` lookup tables) and the recent-queries store
(save / write / load with the INI-file interpolation semantics of Python's
`configparser` and the JSON serialisation of `json.dumps` / `json.loads`),
with proofs of the specification claims about them. -/

/-! Python string primitives, modelled over explicit character lists so that
every definition reduces inside the kernel. -/

/-- Whitespace as recognised by Python `str.strip()` and `str.split()`
(CPython `Py_UNICODE_ISSPACE`). -/
def pyIsSpace (c : Char) : Bool :=
  let n := c.toNat
  (9 ≤ n ∧ n ≤ 13) ∨ (28 ≤ n ∧ n ≤ 31) ∨ n = 32 ∨ n = 0x85 ∨ n = 0xA0 ∨
    n = 0x1680 ∨ (0x2000 ≤ n ∧ n ≤ 0x200A) ∨ n = 0x2028 ∨ n = 0x2029 ∨
    n = 0x202F ∨ n = 0x205F ∨ n = 0x3000

/-- Drop leading and trailing Python whitespace from a character list. -/
def stripList (l : List Char) : List Char :=
  ((l.dropWhile pyIsSpace).reverse.dropWhile pyIsSpace).reverse

/-- Python `str.strip()` (no argument). -/
def pyStrip (s : String) : String := String.mk (stripList s.data)

/-- Split a character list at every character satisfying `p`, keeping empty
segments (the behaviour of Python `str.split(sep)` for a given separator). -/
def splitChars (p : Char → Bool) : List Char → List (List Char)
  | [] => [[]]
  | c :: rest =>
    match splitChars p rest with
    | [] => [[]]
    | g :: gs => if p c then [] :: g :: gs else (c :: g) :: gs

/-- Python `str.split()` with no argument: split on whitespace runs and drop
empty pieces. -/
def pySplitWs (s : String) : List String :=
  ((splitChars pyIsSpace s.data).map String.mk).filter (fun t => t != "")

/-- Python `str.split("|")`: split at every `|`, keeping empty pieces. -/
def pySplitPipe (s : String) : List String :=
  (splitChars (fun c => c = '|') s.data).map String.mk

/-- Python `sep.join(xs)`. -/
def joinSep (sep : String) : List String → String
  | [] => ""
  | [x] => x
  | x :: xs => x ++ sep ++ joinSep sep xs

/-! The SearchCriteria record: dataclass `SearchParts`, Gsearch.py 28-51. -/

/-- The `SearchParts` dataclass: one optional scalar field per form input,
with the dataclass defaults. -/
structure SearchParts where
  all_words : String := ""
  terms_location : String := "anywhere"
  exact_phrase : String := ""
  exclude_words : String := ""
  or_words : String := ""
  site : String := ""
  filetype : String := ""
  intitle : String := ""
  inurl : String := ""
  range_from : String := ""
  range_to : String := ""
  range_unit : String := ""
  before : String := ""
  after : String := ""
  search_type : String := "Web"
  image_size : String := "Any size"
  aspect_ratio : String := "Any aspect ratio"
  color_filter : String := "Any color"
  specific_color : String := ""
  image_type : String := "Any type"
  region : String := "Any region"
  usage_rights : String := "All"
deriving DecidableEq

/-! The query builder: `SearchParts.build_query`, Gsearch.py 53-106.  The
per-token definitions that follow it decompose the same `if` blocks, one
list of zero or one tokens each, to state the claims about single tokens. -/

/-- Method `SearchParts.build_query`: straight-line conditional concatenation of the
advanced-query tokens, joined with single spaces and stripped.  Each `let
pieces := ...` step is one `if` block of the Python method, in source order. -/
def SearchParts.build_query (sp : SearchParts) : String :=
  let pieces : List String := []
  let pieces :=
    if sp.all_words ≠ "" then
      let words := pyStrip sp.all_words
      if sp.terms_location = "title" then pieces ++ ["allintitle:" ++ words]
      else if sp.terms_location = "text" then pieces ++ ["allintext:" ++ words]
      else if sp.terms_location = "url" then pieces ++ ["allinurl:" ++ words]
      else if sp.terms_location = "links" then pieces ++ ["allinanchor:" ++ words]
      else pieces ++ [words]
    else pieces
  let pieces :=
    if sp.exact_phrase ≠ "" then
      pieces ++ ["\"" ++ pyStrip sp.exact_phrase ++ "\""]
    else pieces
  let pieces :=
    if sp.exclude_words ≠ "" then
      pieces ++ [joinSep " " ((pySplitWs sp.exclude_words).map (fun w => "-" ++ w))]
    else pieces
  let pieces :=
    if sp.or_words ≠ "" then
      let ors := joinSep " OR " (((pySplitPipe sp.or_words).map pyStrip).filter (fun t => t != ""))
      if ors ≠ "" then pieces ++ ["(" ++ ors ++ ")"] else pieces
    else pieces
  let pieces :=
    if sp.site ≠ "" then pieces ++ ["site:" ++ pyStrip sp.site] else pieces
  let pieces :=
    if sp.filetype ≠ "" then pieces ++ ["filetype:" ++ pyStrip sp.filetype] else pieces
  let pieces :=
    if sp.intitle ≠ "" then pieces ++ ["intitle:" ++ pyStrip sp.intitle] else pieces
  let pieces :=
    if sp.inurl ≠ "" then pieces ++ ["inurl:" ++ pyStrip sp.inurl] else pieces
  let pieces :=
    if sp.range_from ≠ "" ∧ sp.range_to ≠ "" then
      let r_from := pyStrip sp.range_from
      let r_to := pyStrip sp.range_to
      let unit := pyStrip sp.range_unit
      pieces ++ [if unit ≠ "" then unit ++ r_from ++ ".." ++ unit ++ r_to
                 else r_from ++ ".." ++ r_to]
    else pieces
  let pieces :=
    if sp.before ≠ "" then pieces ++ ["before:" ++ pyStrip sp.before] else pieces
  let pieces :=
    if sp.after ≠ "" then pieces ++ ["after:" ++ pyStrip sp.after] else pieces
  pyStrip (joinSep " " pieces)

/-- Token list of the "all these words" block (Gsearch.py 56-67). -/
def all_tokens (sp : SearchParts) : List String :=
  if sp.all_words ≠ "" then
    let words := pyStrip sp.all_words
    [if sp.terms_location = "title" then "allintitle:" ++ words
     else if sp.terms_location = "text" then "allintext:" ++ words
     else if sp.terms_location = "url" then "allinurl:" ++ words
     else if sp.terms_location = "links" then "allinanchor:" ++ words
     else words]
  else []

/-- Token list of the exact-phrase block (Gsearch.py 69-70). -/
def exact_tokens (sp : SearchParts) : List String :=
  if sp.exact_phrase ≠ "" then ["\"" ++ pyStrip sp.exact_phrase ++ "\""] else []

/-- Token list of the exclude-words block (Gsearch.py 72-74). -/
def exclude_tokens (sp : SearchParts) : List String :=
  if sp.exclude_words ≠ "" then
    [joinSep " " ((pySplitWs sp.exclude_words).map (fun w => "-" ++ w))]
  else []

/-- Token list of the OR-words block (Gsearch.py 76-79). -/
def or_tokens (sp : SearchParts) : List String :=
  if sp.or_words ≠ "" then
    let ors := joinSep " OR " (((pySplitPipe sp.or_words).map pyStrip).filter (fun t => t != ""))
    if ors ≠ "" then ["(" ++ ors ++ ")"] else []
  else []

/-- Token list of the `site:` block (Gsearch.py 81-82). -/
def site_tokens (sp : SearchParts) : List String :=
  if sp.site ≠ "" then ["site:" ++ pyStrip sp.site] else []

/-- Token list of the `filetype:` block (Gsearch.py 84-85). -/
def filetype_tokens (sp : SearchParts) : List String :=
  if sp.filetype ≠ "" then ["filetype:" ++ pyStrip sp.filetype] else []

/-- Token list of the `intitle:` block (Gsearch.py 87-88). -/
def intitle_tokens (sp : SearchParts) : List String :=
  if sp.intitle ≠ "" then ["intitle:" ++ pyStrip sp.intitle] else []

/-- Token list of the `inurl:` block (Gsearch.py 90-91). -/
def inurl_tokens (sp : SearchParts) : List String :=
  if sp.inurl ≠ "" then ["inurl:" ++ pyStrip sp.inurl] else []

/-- Token list of the numeric-range block (Gsearch.py 93-98). -/
def range_tokens (sp : SearchParts) : List String :=
  if sp.range_from ≠ "" ∧ sp.range_to ≠ "" then
    let r_from := pyStrip sp.range_from
    let r_to := pyStrip sp.range_to
    let unit := pyStrip sp.range_unit
    [if unit ≠ "" then unit ++ r_from ++ ".." ++ unit ++ r_to
     else r_from ++ ".." ++ r_to]
  else []

/-- Token list of the `before:` block (Gsearch.py 100-101). -/
def before_tokens (sp : SearchParts) : List String :=
  if sp.before ≠ "" then ["before:" ++ pyStrip sp.before] else []

/-- Token list of the `after:` block (Gsearch.py 103-104). -/
def after_tokens (sp : SearchParts) : List String :=
  if sp.after ≠ "" then ["after:" ++ pyStrip sp.after] else []

/-- The eleven token lists in the fixed order of `build_query`. -/
def query_tokens (sp : SearchParts) : List String :=
  all_tokens sp ++ exact_tokens sp ++ exclude_tokens sp ++ or_tokens sp ++
    site_tokens sp ++ filetype_tokens sp ++ intitle_tokens sp ++
    inurl_tokens sp ++ range_tokens sp ++ before_tokens sp ++ after_tokens sp

/-! Specification-side definitions, written from the claim wording, to be
compared against the source-side definitions above. -/

/-- OR group as described by the claim: split the field on `|`, trim each
piece, drop empty pieces, join with `" OR "`, wrap in parentheses; omitted
when no non-empty piece remains. -/
def or_group_spec (v : String) : List String :=
  let pieces := ((pySplitPipe v).map pyStrip).filter (fun t => t != "")
  if pieces = [] then [] else ["(" ++ joinSep " OR " pieces ++ ")"]

/-! The URL parameter builder: `MainWindow.update_preview`, Gsearch.py
578-665, together with its lookup tables. -/

/-- UTF-8 encoding of one character, as byte values (Python
`str.encode("utf-8")` acts before percent-encoding). -/
def utf8Bytes (c : Char) : List Nat :=
  let n := c.toNat
  if n < 0x80 then [n]
  else if n < 0x800 then [0xC0 + n / 64, 0x80 + n % 64]
  else if n < 0x10000 then [0xE0 + n / 4096, 0x80 + n / 64 % 64, 0x80 + n % 64]
  else [0xF0 + n / 262144, 0x80 + n / 4096 % 64, 0x80 + n / 64 % 64, 0x80 + n % 64]

/-- Bytes `urllib.parse` never percent-encodes: letters, digits and `_.-~`. -/
def isAlwaysSafe (b : Nat) : Bool :=
  (65 ≤ b ∧ b ≤ 90) ∨ (97 ≤ b ∧ b ≤ 122) ∨ (48 ≤ b ∧ b ≤ 57) ∨
    b = 95 ∨ b = 46 ∨ b = 45 ∨ b = 126

def hexDigitUpper (n : Nat) : Char :=
  if n < 10 then Char.ofNat (48 + n) else Char.ofNat (55 + n)

/-- One byte under `urllib.parse.quote_plus`: space becomes `+`, safe bytes
stay, everything else is percent-encoded with uppercase hex. -/
def quotePlusByte (b : Nat) : List Char :=
  if b = 32 then ['+']
  else if isAlwaysSafe b then [Char.ofNat b]
  else ['%', hexDigitUpper (b / 16), hexDigitUpper (b % 16)]

/-- Python `urllib.parse.quote_plus` over the UTF-8 encoding of the string. -/
def quote_plus (s : String) : String :=
  String.mk (((s.data.map utf8Bytes).join.map quotePlusByte).join)

/-- Table `tbm_map` (Gsearch.py 587-591). -/
def tbm_map (t : String) : Option String :=
  if t = "Images" then some "isch"
  else if t = "Videos" then some "vid"
  else if t = "News" then some "nws"
  else none

/-- Table `size_map` (Gsearch.py 597-601). -/
def size_map (s : String) : Option String :=
  if s = "Large" then some "isz:l"
  else if s = "Medium" then some "isz:m"
  else if s = "Icon" then some "isz:i"
  else none

/-- Table `aspect_map` (Gsearch.py 605-610). -/
def aspect_map (s : String) : Option String :=
  if s = "Square" then some "iar:s"
  else if s = "Tall" then some "iar:t"
  else if s = "Wide" then some "iar:w"
  else if s = "Panoramic" then some "iar:xw"
  else none

/-- Table `color_map` (Gsearch.py 614-618). -/
def color_map (s : String) : Option String :=
  if s = "Full color" then some "ic:color"
  else if s = "Black and white" then some "ic:gray"
  else if s = "Transparent" then some "ic:trans"
  else none

/-- Table `spec_map`, the specific-color sub-table (Gsearch.py 622-635). -/
def spec_color_map (s : String) : Option String :=
  if s = "Black" then some "isc:black"
  else if s = "Blue" then some "isc:blue"
  else if s = "Brown" then some "isc:brown"
  else if s = "Gray" then some "isc:gray"
  else if s = "Green" then some "isc:green"
  else if s = "Orange" then some "isc:orange"
  else if s = "Pink" then some "isc:pink"
  else if s = "Purple" then some "isc:purple"
  else if s = "Red" then some "isc:red"
  else if s = "Teal" then some "isc:teal"
  else if s = "White" then some "isc:white"
  else if s = "Yellow" then some "isc:yellow"
  else none

/-- Table `type_map` (Gsearch.py 639-645). -/
def image_type_map (s : String) : Option String :=
  if s = "Face" then some "itp:face"
  else if s = "Photo" then some "itp:photo"
  else if s = "Clip art" then some "itp:clipart"
  else if s = "Line drawing" then some "itp:lineart"
  else if s = "Animated" then some "itp:animated"
  else none

/-- Table `usage_map` (Gsearch.py 649-654). -/
def usage_map (s : String) : Option String :=
  if s = "Free to use or share" then some "sur:f"
  else if s = "Free to use or share commercially" then some "sur:fc"
  else if s = "Free to use or share or modify" then some "sur:fm"
  else if s = "Free to use or share or modify commercially" then some "sur:fmc"
  else none

/-- Table `self.region_map` (Gsearch.py 306-319). -/
def region_map (r : String) : Option String :=
  if r = "Afghanistan" then some "countryAF"
  else if r = "Albania" then some "countryAL"
  else if r = "Algeria" then some "countryDZ"
  else if r = "Australia" then some "countryAU"
  else if r = "Brazil" then some "countryBR"
  else if r = "Canada" then some "countryCA"
  else if r = "France" then some "countryFR"
  else if r = "Germany" then some "countryDE"
  else if r = "India" then some "countryIN"
  else if r = "Japan" then some "countryJP"
  else if r = "United Kingdom" then some "countryGB"
  else if r = "United States" then some "countryUS"
  else none

/-- The `tbs_parts` list accumulated for image search (Gsearch.py 596-656):
size, aspect ratio, colour (with the specific-colour sub-table consulted in
the `elif` branch), image type, usage rights, in source order. -/
def tbs_parts (sp : SearchParts) : List String :=
  (size_map sp.image_size).toList ++
    (aspect_map sp.aspect_ratio).toList ++
    (match color_map sp.color_filter with
     | some code => [code]
     | none =>
       if sp.color_filter = "Specific color" ∧ sp.specific_color ≠ "" then
         (spec_color_map sp.specific_color).toList
       else []) ++
    (image_type_map sp.image_type).toList ++
    (usage_map sp.usage_rights).toList

/-- Method `MainWindow.update_preview` as a pure function of the gathered record
(Gsearch.py 578-664; `gather_parts` makes the combo boxes read inside the
method equal to the corresponding record fields). -/
def update_preview (sp : SearchParts) : String :=
  let q := sp.build_query
  if q = "" then "<empty — enter search terms>"
  else
    let url_frag := "q=" ++ quote_plus q
    let url_frag :=
      match tbm_map sp.search_type with
      | some code => url_frag ++ "&tbm=" ++ code
      | none => url_frag
    if sp.search_type = "Images" then
      let url_frag :=
        if tbs_parts sp ≠ [] then url_frag ++ "&tbs=" ++ joinSep "," (tbs_parts sp)
        else url_frag
      match region_map sp.region with
      | some code => url_frag ++ "&cr=" ++ code
      | none => url_frag
    else url_frag

/-- Concrete record for the C4 witness: an image search asking for red
images. -/
def c4wRecord : SearchParts :=
  { all_words := "cat", search_type := "Images", color_filter := "Specific color",
    specific_color := "Red" }

/-- Concrete record for the C4 witness whose colour filter is not
`Specific color`. -/
def c4qRecord : SearchParts :=
  { all_words := "cat", search_type := "Images", color_filter := "Any color" }

/-- Concrete record for the C5 witness. -/
def c5wRecord : SearchParts := { all_words := "hello world", search_type := "Videos" }

/-- Concrete record for the C10 witness. -/
def c10wRecord : SearchParts :=
  { all_words := "sunset", search_type := "Images", color_filter := "Full color",
    specific_color := "Red" }

/-! The recent-queries store, Gsearch.py 684-697 and 836-870.  The persisted
file is modelled as its `[Recent]` section: an ordered list of (option name,
raw value) pairs as `configparser` delivers them.  The interpolation hooks of
`BasicInterpolation` (validation on set, expansion on get) and the `json`
serialisation are modelled below; recursions that scan a list are given
explicit fuel exceeding the scanned length so that every definition reduces
inside the kernel. -/

/-- One in-memory recent entry: the generated query string and the criteria
record as the dictionary `gather_parts().__dict__`. -/
structure RecentEntry where
  query : String
  parts : List (String × String)
deriving DecidableEq

/-- Dictionary `__dict__` of a `SearchParts` record: the fields in dataclass order. -/
def partsDict (p : SearchParts) : List (String × String) :=
  [("all_words", p.all_words), ("terms_location", p.terms_location),
   ("exact_phrase", p.exact_phrase), ("exclude_words", p.exclude_words),
   ("or_words", p.or_words), ("site", p.site), ("filetype", p.filetype),
   ("intitle", p.intitle), ("inurl", p.inurl), ("range_from", p.range_from),
   ("range_to", p.range_to), ("range_unit", p.range_unit),
   ("before", p.before), ("after", p.after), ("search_type", p.search_type),
   ("image_size", p.image_size), ("aspect_ratio", p.aspect_ratio),
   ("color_filter", p.color_filter), ("specific_color", p.specific_color),
   ("image_type", p.image_type), ("region", p.region),
   ("usage_rights", p.usage_rights)]

def MAX_RECENT : Nat := 20

/-- In-memory effect of `save_current_query` (Gsearch.py 684-694): no change
on an empty query; otherwise drop entries with an identical query string,
insert the new entry at position 0 and truncate to `MAX_RECENT`. -/
def saveRecent (recent : List RecentEntry) (p : SearchParts) : List RecentEntry :=
  let text_q := p.build_query
  if text_q = "" then recent
  else
    let entry : RecentEntry := ⟨text_q, partsDict p⟩
    (entry :: recent.filter (fun e => e.query != text_q)).take MAX_RECENT

def hexDigitLower (n : Nat) : Char :=
  if n < 10 then Char.ofNat (48 + n) else Char.ofNat (87 + n)

/-- An escape of the form backslash-u-hex4 with lowercase hex with lowercase hex, as emitted by `json.dumps`. -/
def u4 (n : Nat) : List Char :=
  ['\\', 'u', hexDigitLower (n / 4096 % 16), hexDigitLower (n / 256 % 16),
   hexDigitLower (n / 16 % 16), hexDigitLower (n % 16)]

/-- Escape one character the way `json.dumps` (with its default
`ensure_ascii=True`) does: short escapes, printable ASCII verbatim, other
characters as `\u` escapes (surrogate pairs beyond the BMP). -/
def jsonEscapeChar (c : Char) : List Char :=
  if c = '"' then ['\\', '"']
  else if c = '\\' then ['\\', '\\']
  else if c = Char.ofNat 8 then ['\\', 'b']
  else if c = Char.ofNat 12 then ['\\', 'f']
  else if c = '\n' then ['\\', 'n']
  else if c = '\r' then ['\\', 'r']
  else if c = '\t' then ['\\', 't']
  else if 0x20 ≤ c.toNat ∧ c.toNat ≤ 0x7E then [c]
  else if c.toNat < 0x10000 then u4 c.toNat
  else u4 (0xD800 + (c.toNat - 0x10000) / 0x400) ++ u4 (0xDC00 + (c.toNat - 0x10000) % 0x400)

def jsonQuote (s : String) : String :=
  String.mk ('"' :: ((s.data.map jsonEscapeChar).join ++ ['"']))

/-- Python `json.dumps` of a flat string-to-string dictionary, with the default
separators `", "` and `": "` and insertion order preserved. -/
def jsonDumps (d : List (String × String)) : String :=
  "\x7b" ++ joinSep ", " (d.map (fun kv => jsonQuote kv.1 ++ ": " ++ jsonQuote kv.2)) ++ "\x7d"

/-- JSON whitespace skipped by `json.loads`. -/
def skipWs (l : List Char) : List Char :=
  l.dropWhile (fun c => c = ' ' ∨ c = '\t' ∨ c = '\n' ∨ c = '\r')

def hexVal (c : Char) : Option Nat :=
  let n := c.toNat
  if 48 ≤ n ∧ n ≤ 57 then some (n - 48)
  else if 65 ≤ n ∧ n ≤ 70 then some (n - 55)
  else if 97 ≤ n ∧ n ≤ 102 then some (n - 87)
  else none

def hex4 (a b c d : Char) : Option Nat :=
  match hexVal a, hexVal b, hexVal c, hexVal d with
  | some x, some y, some z, some w => some (x * 4096 + y * 256 + z * 16 + w)
  | _, _, _, _ => none

/-- Short escapes accepted inside a JSON string. -/
def escChar (e : Char) : Option Char :=
  if e = '"' then some '"'
  else if e = '\\' then some '\\'
  else if e = '/' then some '/'
  else if e = 'b' then some (Char.ofNat 8)
  else if e = 'f' then some (Char.ofNat 12)
  else if e = 'n' then some '\n'
  else if e = 'r' then some '\r'
  else if e = 't' then some '\t'
  else none

/-- Scan a JSON string body after the opening quote, returning the decoded
characters and the input following the closing quote.  Raw control characters
are rejected (`json.loads` default `strict=True`); `\u` surrogate pairs are
combined (a lone surrogate is not representable as `Char` and is rejected). -/
def parseJsonStringAux : List Char → Option (List Char × List Char)
  | [] => none
  | '"' :: rest => some ([], rest)
  | '\\' :: 'u' :: a :: b :: c :: d :: rest =>
    match hex4 a b c d with
    | none => none
    | some n =>
      if 0xD800 ≤ n ∧ n ≤ 0xDBFF then
        match rest with
        | '\\' :: 'u' :: a2 :: b2 :: c2 :: d2 :: rest2 =>
          match hex4 a2 b2 c2 d2 with
          | none => none
          | some m =>
            if 0xDC00 ≤ m ∧ m ≤ 0xDFFF then
              (parseJsonStringAux rest2).map (fun pr =>
                (Char.ofNat (0x10000 + (n - 0xD800) * 0x400 + (m - 0xDC00)) :: pr.1, pr.2))
            else none
        | _ => none
      else if 0xDC00 ≤ n ∧ n ≤ 0xDFFF then none
      else (parseJsonStringAux rest).map (fun pr => (Char.ofNat n :: pr.1, pr.2))
  | '\\' :: e :: rest =>
    match escChar e with
    | none => none
    | some c => (parseJsonStringAux rest).map (fun pr => (c :: pr.1, pr.2))
  | c :: rest =>
    if c.toNat < 0x20 then none
    else (parseJsonStringAux rest).map (fun pr => (c :: pr.1, pr.2))

/-- Parse `"key": "value"` members up to and including the closing brace; the
fuel exceeds any possible member count of the input. -/
def parseMembersAux : Nat → List Char → Option (List (String × String) × List Char)
  | 0, _ => none
  | fuel + 1, l =>
    match l with
    | '"' :: rest =>
      match parseJsonStringAux rest with
      | none => none
      | some (key, rest1) =>
        match skipWs rest1 with
        | ':' :: rest2 =>
          match skipWs rest2 with
          | '"' :: rest3 =>
            match parseJsonStringAux rest3 with
            | none => none
            | some (val, rest4) =>
              match skipWs rest4 with
              | ',' :: rest5 =>
                match parseMembersAux fuel (skipWs rest5) with
                | none => none
                | some (tail, rest6) => some ((String.mk key, String.mk val) :: tail, rest6)
              | '\x7d' :: rest5 => some ([(String.mk key, String.mk val)], rest5)
              | _ => none
          | _ => none
        | _ => none
    | _ => none

/-- Python `json.loads`, modelled for the values this program stores: a flat JSON
object with string keys and string values (the only shape
`_write_recent_to_disk` ever produces). -/
def jsonLoads (s : String) : Option (List (String × String)) :=
  match skipWs s.data with
  | '\x7b' :: rest =>
    match skipWs rest with
    | '\x7d' :: rest2 => if skipWs rest2 = [] then some [] else none
    | r =>
      match parseMembersAux (r.length + 1) r with
      | none => none
      | some (members, rest2) => if skipWs rest2 = [] then some members else none
  | _ => none

/-- Python `str.replace("%%", "")`, scanning left to right. -/
def stripDoublePercent : List Char → List Char
  | '%' :: '%' :: rest => stripDoublePercent rest
  | c :: rest => c :: stripDoublePercent rest
  | [] => []

/-- Match the tail of a `%(name)s` reference (the part after `%(`): one or
more non-`)` name characters, then `)s`; returns the name and the rest. -/
def parseRefAux : List Char → Option (List Char × List Char)
  | [] => none
  | c :: rest =>
    if c = ')' then
      match rest with
      | 's' :: rest2 => some ([], rest2)
      | _ => none
    else (parseRefAux rest).map (fun pr => (c :: pr.1, pr.2))

/-- Match a whole `%(name)s` reference body (input positioned after `%(`);
the name must be non-empty (`_KEYCRE` uses `[^)]+`). -/
def parseRef (l : List Char) : Option (List Char × List Char) :=
  match l with
  | ')' :: _ => none
  | _ => parseRefAux l

/-- Remove every `%(name)s` reference, scanning left to right (the
`_KEYCRE.sub('', ...)` step of `before_set`); fuel exceeds the input
length. -/
def stripKeyRefsF : Nat → List Char → List Char
  | 0, l => l
  | _ + 1, [] => []
  | fuel + 1, '%' :: '(' :: rest =>
    match parseRef rest with
    | some pr => stripKeyRefsF fuel pr.2
    | none => '%' :: '(' :: stripKeyRefsF fuel rest
  | fuel + 1, c :: rest => c :: stripKeyRefsF fuel rest

def stripKeyRefs (l : List Char) : List Char := stripKeyRefsF (l.length + 1) l

/-- Hook `BasicInterpolation.before_set`: after deleting `%%` pairs and `%(name)s`
references, any remaining `%` raises `ValueError` (modelled as `none`). -/
def interpBeforeSet (v : String) : Option String :=
  if (stripKeyRefs (stripDoublePercent v.data)).contains '%' then none else some v

def maxInterpolationDepth : Nat := 10

/-- Option lookup in the section; `optionxform` lower-cases looked-up names
(keys written by this program are already lowercase ASCII). -/
def lookupKey (sect : List (String × String)) (k : String) : Option String :=
  (sect.find? (fun kv => kv.1 == k)).map (fun kv => kv.2)

def lowerName (l : List Char) : String := String.mk (l.map Char.toLower)

/-- One scanning pass of `BasicInterpolation._interpolate_some`: `%%` yields
`%`, `%(name)s` is looked up in the section and expanded via `expand`, any
other `%` raises (`none`); ordinary characters are copied.  Fuel exceeds the
scanned length. -/
def interpScanF (sect : List (String × String)) (expand : String → Option (List Char)) :
    Nat → List Char → Option (List Char)
  | 0, _ => none
  | _ + 1, [] => some []
  | fuel + 1, '%' :: '%' :: rest => (interpScanF sect expand fuel rest).map (fun t => '%' :: t)
  | fuel + 1, '%' :: '(' :: rest =>
    match parseRef rest with
    | none => none
    | some pr =>
      match lookupKey sect (lowerName pr.1) with
      | none => none
      | some raw =>
        match expand raw, interpScanF sect expand fuel pr.2 with
        | some v, some t => some (v ++ t)
        | _, _ => none
  | _ + 1, '%' :: _ :: _ => none
  | _ + 1, ['%'] => none
  | fuel + 1, c :: rest => (interpScanF sect expand fuel rest).map (fun t => c :: t)

def interpScan (sect : List (String × String)) (expand : String → Option (List Char))
    (l : List Char) : Option (List Char) :=
  interpScanF sect expand (l.length + 1) l

/-- Depth-limited interpolation (`MAX_INTERPOLATION_DEPTH = 10`): an expanded
value still containing `%` is interpolated one depth level further; running
out of depth is `InterpolationDepthError` (`none`). -/
def interpDepth (sect : List (String × String)) : Nat → List Char → Option (List Char)
  | 0, _ => none
  | gas + 1, l =>
    interpScan sect
      (fun raw =>
        if raw.data.contains '%' then interpDepth sect gas raw.data else some raw.data) l

/-- Hook `BasicInterpolation.before_get` applied to a raw stored value. -/
def interpBeforeGet (sect : List (String × String)) (v : String) : Option String :=
  (interpDepth sect maxInterpolationDepth v.data).map String.mk

/-- The `[Recent]` section produced by `_write_recent_to_disk`
(Gsearch.py 836-846): `query_i` / `parts_i` pairs with `i` counted from 1;
a `before_set` failure is the raised `ValueError`, which the `except` branch
swallows leaving the file unwritten (`none`). -/
def writeRecentAux : Nat → List RecentEntry → Option (List (String × String))
  | _, [] => some []
  | i, e :: rest =>
    match interpBeforeSet e.query with
    | none => none
    | some q =>
      match interpBeforeSet (jsonDumps e.parts) with
      | none => none
      | some ps =>
        match writeRecentAux (i + 1) rest with
        | none => none
        | some tail =>
          some (("query_" ++ Nat.repr i, q) :: ("parts_" ++ Nat.repr i, ps) :: tail)

def writeRecentFile (entries : List RecentEntry) : Option (List (String × String)) :=
  writeRecentAux 1 entries

/-- The parsing loop of `load_recent_from_disk` (Gsearch.py 854-866): read
`query_i` / `parts_i` while `query_i` exists (`parts_i` defaulting to the
literal `"{}"` without interpolation, as `section.get` does for a missing
key); any interpolation or JSON failure is the raised exception (`none`).
Fuel exceeds any possible run of distinct `query_i` keys. -/
def parseRecentAux (sect : List (String × String)) : Nat → Nat → Option (List RecentEntry)
  | 0, _ => none
  | fuel + 1, i =>
    match lookupKey sect ("query_" ++ Nat.repr i) with
    | none => some []
    | some rawq =>
      match interpBeforeGet sect rawq with
      | none => none
      | some q =>
        match (match lookupKey sect ("parts_" ++ Nat.repr i) with
               | none => some "\x7b\x7d"
               | some rawp => interpBeforeGet sect rawp) with
        | none => none
        | some ps =>
          match jsonLoads ps with
          | none => none
          | some parts =>
            match parseRecentAux sect fuel (i + 1) with
            | none => none
            | some rest => some (⟨q, parts⟩ :: rest)

def parseRecent (sect : List (String × String)) : Option (List RecentEntry) :=
  parseRecentAux sect (sect.length + 1) 1

/-- Method `load_recent_from_disk` (Gsearch.py 848-870) over the optional file
(modelled as its `[Recent]` section): a missing file yields an empty list and
writes an empty file; a failing parse is caught and yields an empty list
without writing. -/
def load_recent_from_disk :
    Option (List (String × String)) → List RecentEntry × Option (List (String × String))
  | none => ([], writeRecentFile [])
  | some sect =>
    match parseRecent sect with
    | some entries => (entries, none)
    | none => ([], none)

/-- Record whose generated query contains a percent sign. -/
def c2FailRecord : SearchParts := { all_words := "50%" }

/-- Concrete record for the C3 witness. -/
def c3wRecord : SearchParts := { all_words := "rust" }

/-- A stored file whose `parts_1` value is not valid JSON. -/
def c9BadFile : List (String × String) := [("query_1", "x"), ("parts_1", "nonsense")]

/-! Theorems: evaluation checks, helper lemmas, and the claims. -/

example : SearchParts.build_query {} = "" := by decide

example :
    SearchParts.build_query
      { all_words := "laptop", range_from := "500", range_to := "1000", range_unit := "$" } =
      "laptop $500..$1000" := by decide

example :
    SearchParts.build_query { or_words := "chicken|beef| |tofu" } =
      "(chicken OR beef OR tofu)" := by decide

example :
    SearchParts.build_query { exclude_words := "fried spicy" } = "-fried -spicy" := by decide

theorem strData_append (s t : String) : (s ++ t).data = s.data ++ t.data := by
  rcases s with ⟨ls⟩; rcases t with ⟨lt⟩; rfl

theorem strEq_empty_iff (s : String) : s = "" ↔ s.data = [] := by
  rcases s with ⟨ls⟩
  constructor
  · intro h; rw [h]
  · intro h; exact congrArg String.mk h

theorem strAppend_assoc (a b c : String) : a ++ b ++ c = a ++ (b ++ c) := by
  rcases a with ⟨la⟩; rcases b with ⟨lb⟩; rcases c with ⟨lc⟩
  show String.mk (la ++ lb ++ lc) = String.mk (la ++ (lb ++ lc))
  exact congrArg String.mk (List.append_assoc la lb lc)

theorem strAppend_empty (s : String) : s ++ "" = s := by
  rcases s with ⟨ls⟩
  show String.mk (ls ++ []) = String.mk ls
  exact congrArg String.mk (List.append_nil ls)

theorem strEmpty_append (s : String) : "" ++ s = s := by
  rcases s with ⟨ls⟩; rfl

theorem strAppend_ne_empty_left (s t : String) (h : s ≠ "") : s ++ t ≠ "" := by
  intro he
  apply h
  rw [strEq_empty_iff] at he ⊢
  rw [strData_append] at he
  exact (List.append_eq_nil.mp he).1

theorem ite_append_single (c : Prop) [Decidable c] (l : List String) (x : String) :
    (if c then l ++ [x] else l) = l ++ (if c then [x] else []) := by
  split <;> simp

theorem ite_append_branch (c : Prop) [Decidable c] (l : List String) (x y : String) :
    (if c then l ++ [x] else l ++ [y]) = l ++ [if c then x else y] := by
  split <;> rfl

theorem ite_append_list (c : Prop) [Decidable c] (l t : List String) :
    (if c then l ++ t else l) = l ++ (if c then t else []) := by
  split <;> simp

theorem joinSep_cons_ne_empty (sep t : String) (ts : List String) (h : t ≠ "") :
    joinSep sep (t :: ts) ≠ "" := by
  cases ts with
  | nil => simpa [joinSep] using h
  | cons y ys =>
    show t ++ sep ++ joinSep sep (y :: ys) ≠ ""
    exact strAppend_ne_empty_left _ _ (strAppend_ne_empty_left _ _ h)

/-- C1: `build_query` produces the advanced-query string by concatenating, in
the fixed order all-words, exact phrase, exclude words, OR group, `site:`,
`filetype:`, `intitle:`, `inurl:`, numeric range, `before:`, `after:`, each
token included only if its source field is non-empty (token list empty when
the field is empty), tokens separated by single spaces and the result trimmed;
the record with every field at its default yields the empty string. -/
theorem c1_build_query_structure (p : SearchParts) :
    p.build_query = pyStrip (joinSep " " (query_tokens p)) ∧
    all_tokens { p with all_words := "" } = [] ∧
    exact_tokens { p with exact_phrase := "" } = [] ∧
    exclude_tokens { p with exclude_words := "" } = [] ∧
    or_tokens { p with or_words := "" } = [] ∧
    site_tokens { p with site := "" } = [] ∧
    filetype_tokens { p with filetype := "" } = [] ∧
    intitle_tokens { p with intitle := "" } = [] ∧
    inurl_tokens { p with inurl := "" } = [] ∧
    range_tokens { p with range_from := "" } = [] ∧
    range_tokens { p with range_to := "" } = [] ∧
    before_tokens { p with before := "" } = [] ∧
    after_tokens { p with after := "" } = [] ∧
    SearchParts.build_query {} = "" := by
  refine ⟨?_, ?_, ?_, ?_, ?_, ?_, ?_, ?_, ?_, ?_, ?_, ?_, ?_, by decide⟩
  · simp only [SearchParts.build_query, query_tokens, all_tokens, exact_tokens,
      exclude_tokens, or_tokens, site_tokens, filetype_tokens, intitle_tokens,
      inurl_tokens, range_tokens, before_tokens, after_tokens]
    simp only [ite_append_branch, ite_append_single, ite_append_list]
    simp only [List.nil_append]
  · simp [all_tokens]
  · simp [exact_tokens]
  · simp [exclude_tokens]
  · simp [or_tokens]
  · simp [site_tokens]
  · simp [filetype_tokens]
  · simp [intitle_tokens]
  · simp [inurl_tokens]
  · simp [range_tokens]
  · simp [range_tokens]
  · simp [before_tokens]
  · simp [after_tokens]

/-- C6: the OR-words token is exactly the claimed split/trim/drop/join/wrap
group, omitted when no non-empty piece remains; the field
`"chicken|beef| |tofu"` yields the query `"(chicken OR beef OR tofu)"`. -/
theorem c6_or_words (p : SearchParts) :
    or_tokens p = or_group_spec p.or_words ∧
    SearchParts.build_query { or_words := "chicken|beef| |tofu" } =
      "(chicken OR beef OR tofu)" := by
  refine ⟨?_, by decide⟩
  by_cases h : p.or_words = ""
  · simp only [or_tokens, or_group_spec, h]
    decide
  · simp only [or_tokens, or_group_spec]
    rw [if_pos h]
    rcases hp : ((pySplitPipe p.or_words).map pyStrip).filter (fun t => t != "") with
      _ | ⟨t, ts⟩
    · simp [joinSep]
    · have ht : t ≠ "" := by
        have hmem : t ∈ ((pySplitPipe p.or_words).map pyStrip).filter (fun t => t != "") := by
          rw [hp]; exact List.mem_cons_self _ _
        have := (List.mem_filter.mp hmem).2
        simpa using this
      simp [joinSep_cons_ne_empty _ _ _ ht]

/-- C7: the numeric-range token is emitted exactly when both bounds are
non-empty, in the form `<unit><from>..<unit><to>` with the (stripped) unit
prepended to both (stripped) bounds; from `"500"`, to `"1000"`, unit `"$"`
yields the token `"$500..$1000"`. -/
theorem c7_numeric_range (p : SearchParts) :
    range_tokens p =
      (if p.range_from ≠ "" ∧ p.range_to ≠ "" then
        [pyStrip p.range_unit ++ pyStrip p.range_from ++ ".." ++
          pyStrip p.range_unit ++ pyStrip p.range_to]
      else []) ∧
    range_tokens { range_from := "500", range_to := "1000", range_unit := "$" } =
      ["$500..$1000"] := by
  refine ⟨?_, by decide⟩
  simp only [range_tokens]
  split
  · split
    · rfl
    · rename_i hu
      rw [not_not] at hu
      rw [hu, strEmpty_append, strAppend_empty]
  · rfl

/-- C8 counterexample: the exact-phrase token is not the field value quoted
verbatim — the value `" a "` is stripped to `"a"` before quoting. -/
theorem c8_counterexample :
    exact_tokens { exact_phrase := " a " } = ["\"a\""] ∧
    exact_tokens { exact_phrase := " a " } ≠ ["\"" ++ " a " ++ "\""] := by decide

/-- C8 (amended): for every record the exact-phrase token is the field value
stripped of leading/trailing whitespace and double-quoted, emitted exactly
when the field is non-empty. -/
theorem c8_exact_phrase_stripped (p : SearchParts) :
    exact_tokens p =
      if p.exact_phrase = "" then [] else ["\"" ++ pyStrip p.exact_phrase ++ "\""] := by
  by_cases h : p.exact_phrase = "" <;> simp [exact_tokens, h]

example :
    update_preview { all_words := "mountain landscape", filetype := "jpg",
                     search_type := "Images" } =
      "q=mountain+landscape+filetype%3Ajpg&tbm=isch" := by decide

example :
    update_preview { all_words := "hello world" } = "q=hello+world" := by decide

theorem mem_size_map {s x : String} (h : x ∈ (size_map s).toList) :
    x = "isz:l" ∨ x = "isz:m" ∨ x = "isz:i" := by
  unfold size_map at h
  split_ifs at h <;> simp_all

theorem mem_aspect_map {s x : String} (h : x ∈ (aspect_map s).toList) :
    x = "iar:s" ∨ x = "iar:t" ∨ x = "iar:w" ∨ x = "iar:xw" := by
  unfold aspect_map at h
  split_ifs at h <;> simp_all

set_option maxHeartbeats 1600000 in
theorem mem_spec_color_map {s x : String} (h : x ∈ (spec_color_map s).toList) :
    x = "isc:black" ∨ x = "isc:blue" ∨ x = "isc:brown" ∨ x = "isc:gray" ∨
    x = "isc:green" ∨ x = "isc:orange" ∨ x = "isc:pink" ∨ x = "isc:purple" ∨
    x = "isc:red" ∨ x = "isc:teal" ∨ x = "isc:white" ∨ x = "isc:yellow" := by
  unfold spec_color_map at h
  split_ifs at h <;>
    simp only [Option.toList_some, Option.toList_none, List.mem_singleton,
      List.not_mem_nil] at h <;>
    tauto

theorem mem_image_type_map {s x : String} (h : x ∈ (image_type_map s).toList) :
    x = "itp:face" ∨ x = "itp:photo" ∨ x = "itp:clipart" ∨ x = "itp:lineart" ∨
    x = "itp:animated" := by
  unfold image_type_map at h
  split_ifs at h <;> simp_all

theorem mem_usage_map {s x : String} (h : x ∈ (usage_map s).toList) :
    x = "sur:f" ∨ x = "sur:fc" ∨ x = "sur:fm" ∨ x = "sur:fmc" := by
  unfold usage_map at h
  split_ifs at h <;> simp_all

/-- Under a `Specific color` filter with colour `Red`, the colour contribution
to `tbs_parts` is exactly `isc:red`. -/
theorem tbs_parts_color_red (sp : SearchParts) (hc : sp.color_filter = "Specific color")
    (hs : sp.specific_color = "Red") :
    tbs_parts sp =
      (size_map sp.image_size).toList ++ (aspect_map sp.aspect_ratio).toList ++
        ["isc:red"] ++ (image_type_map sp.image_type).toList ++
        (usage_map sp.usage_rights).toList := by
  have h1 : color_map "Specific color" = none := rfl
  have h2 : spec_color_map "Red" = some "isc:red" := rfl
  unfold tbs_parts
  rw [hc, hs, h1, h2]
  simp

/-- When the colour filter is not `Specific color`, `tbs_parts` does not read
the `specific_color` field at all. -/
theorem tbs_parts_ignores_specific_color (q : SearchParts) (c : String)
    (hq : q.color_filter ≠ "Specific color") :
    tbs_parts { q with specific_color := c } = tbs_parts q := by
  unfold tbs_parts
  cases hcm : color_map q.color_filter with
  | some code => simp [hcm]
  | none => simp [hcm, hq]

/-- With a `Specific color` filter, every member of `tbs_parts` comes from the
size, aspect, specific-colour, type or usage table. -/
theorem tbs_parts_mem_univ (sp : SearchParts) (x : String)
    (hc : sp.color_filter = "Specific color") (hx : x ∈ tbs_parts sp) :
    x ∈ (["isz:l", "isz:m", "isz:i", "iar:s", "iar:t", "iar:w", "iar:xw",
          "isc:black", "isc:blue", "isc:brown", "isc:gray", "isc:green",
          "isc:orange", "isc:pink", "isc:purple", "isc:red", "isc:teal",
          "isc:white", "isc:yellow", "itp:face", "itp:photo", "itp:clipart",
          "itp:lineart", "itp:animated", "sur:f", "sur:fc", "sur:fm",
          "sur:fmc"] : List String) := by
  have h1 : color_map "Specific color" = none := rfl
  unfold tbs_parts at hx
  rw [hc, h1] at hx
  simp only [List.mem_append] at hx
  rcases hx with ((((hx | hx) | hx) | hx) | hx)
  · rcases mem_size_map hx with rfl | rfl | rfl <;> decide
  · rcases mem_aspect_map hx with rfl | rfl | rfl | rfl <;> decide
  · split at hx
    · rcases mem_spec_color_map hx with
        rfl | rfl | rfl | rfl | rfl | rfl | rfl | rfl | rfl | rfl | rfl | rfl <;> decide
    · simp at hx
  · rcases mem_image_type_map hx with rfl | rfl | rfl | rfl | rfl <;> decide
  · rcases mem_usage_map hx with rfl | rfl | rfl | rfl <;> decide

/-- C4: for an image search with colour filter `Specific color` and specific
colour `Red`, the `tbs` code list contains `isc:red` and none of the `ic:`
colour codes, and the specific-colour sub-table is consulted only when the
colour filter equals `Specific color` (for any other filter the field is
ignored). -/
theorem c4_specific_color_red (p q : SearchParts) (c : String)
    (ht : p.search_type = "Images") (hc : p.color_filter = "Specific color")
    (hs : p.specific_color = "Red") (hq : q.color_filter ≠ "Specific color") :
    "isc:red" ∈ tbs_parts p ∧
    "ic:color" ∉ tbs_parts p ∧ "ic:gray" ∉ tbs_parts p ∧ "ic:trans" ∉ tbs_parts p ∧
    tbs_parts { q with specific_color := c } = tbs_parts q := by
  refine ⟨?_, ?_, ?_, ?_, tbs_parts_ignores_specific_color q c hq⟩
  · rw [tbs_parts_color_red p hc hs]
    simp
  · intro hmem
    exact absurd (tbs_parts_mem_univ p _ hc hmem) (by decide)
  · intro hmem
    exact absurd (tbs_parts_mem_univ p _ hc hmem) (by decide)
  · intro hmem
    exact absurd (tbs_parts_mem_univ p _ hc hmem) (by decide)

/-- C4 witness: the theorem applied at a concrete red-image record, plus the
evaluated `tbs` list. -/
theorem c4_specific_color_red_witness :
    ("isc:red" ∈ tbs_parts c4wRecord ∧
      "ic:color" ∉ tbs_parts c4wRecord ∧ "ic:gray" ∉ tbs_parts c4wRecord ∧
      "ic:trans" ∉ tbs_parts c4wRecord ∧
      tbs_parts { c4qRecord with specific_color := "Blue" } = tbs_parts c4qRecord) ∧
    tbs_parts c4wRecord = ["isc:red"] := by
  refine ⟨c4_specific_color_red c4wRecord c4qRecord "Blue" rfl rfl rfl (by decide), ?_⟩
  decide

theorem merge_tbm_isch (s : String) : "&tbm=" ++ ("isch" ++ s) = "&tbm=isch" ++ s := by
  rw [← strAppend_assoc]
  exact congrArg (fun y => y ++ s) (by decide)

theorem merge_tbm_isch0 : ("&tbm=" ++ "isch" : String) = "&tbm=isch" := by decide

/-- C5: for a record with a non-empty query, the URL fragment is `q=` followed
by the `quote_plus` percent-encoding of the query, with `&tbm=isch` appended
for Images (followed only by the image filter parameters), `&tbm=vid` for
Videos, `&tbm=nws` for News, and no further parameter for Web. -/
theorem c5_url_q_and_tbm (p : SearchParts) (h : p.build_query ≠ "") :
    (p.search_type = "Images" →
      ∃ rest, update_preview p = "q=" ++ quote_plus p.build_query ++ "&tbm=isch" ++ rest) ∧
    (p.search_type = "Videos" →
      update_preview p = "q=" ++ quote_plus p.build_query ++ "&tbm=vid") ∧
    (p.search_type = "News" →
      update_preview p = "q=" ++ quote_plus p.build_query ++ "&tbm=nws") ∧
    (p.search_type = "Web" →
      update_preview p = "q=" ++ quote_plus p.build_query) := by
  refine ⟨?_, ?_, ?_, ?_⟩ <;> intro hst <;>
    simp only [update_preview] <;> rw [if_neg (by simpa using h), hst]
  · rw [if_pos rfl]
    cases htm : tbm_map "Images" with
    | none =>
      rw [(rfl : tbm_map "Images" = some "isch")] at htm
      exact Option.noConfusion htm
    | some code =>
      have hc : code = "isch" := by
        rw [(rfl : tbm_map "Images" = some "isch")] at htm
        exact (Option.some.inj htm).symm
      subst hc
      cases hr : region_map p.region with
      | some rcode =>
        by_cases htb : tbs_parts p ≠ []
        · refine ⟨"&tbs=" ++ (joinSep "," (tbs_parts p) ++ ("&cr=" ++ rcode)), ?_⟩
          rw [if_pos htb]
          simp only [strAppend_assoc, merge_tbm_isch]
        · refine ⟨"&cr=" ++ rcode, ?_⟩
          rw [if_neg htb]
          simp only [strAppend_assoc, merge_tbm_isch]
      | none =>
        by_cases htb : tbs_parts p ≠ []
        · refine ⟨"&tbs=" ++ joinSep "," (tbs_parts p), ?_⟩
          rw [if_pos htb]
          simp only [strAppend_assoc, merge_tbm_isch]
        · refine ⟨"", ?_⟩
          rw [if_neg htb]
          simp only [strAppend_assoc, merge_tbm_isch0, strAppend_empty]
  · rw [if_neg (by decide)]
    cases htm : tbm_map "Videos" with
    | none =>
      rw [(rfl : tbm_map "Videos" = some "vid")] at htm
      exact Option.noConfusion htm
    | some code =>
      have hc : code = "vid" := by
        rw [(rfl : tbm_map "Videos" = some "vid")] at htm
        exact (Option.some.inj htm).symm
      subst hc
      simp only [strAppend_assoc, (by decide : ("&tbm=" ++ "vid" : String) = "&tbm=vid")]
  · rw [if_neg (by decide)]
    cases htm : tbm_map "News" with
    | none =>
      rw [(rfl : tbm_map "News" = some "nws")] at htm
      exact Option.noConfusion htm
    | some code =>
      have hc : code = "nws" := by
        rw [(rfl : tbm_map "News" = some "nws")] at htm
        exact (Option.some.inj htm).symm
      subst hc
      simp only [strAppend_assoc, (by decide : ("&tbm=" ++ "nws" : String) = "&tbm=nws")]
  · rw [if_neg (by decide)]
    cases htm : tbm_map "Web" with
    | none => rfl
    | some code =>
      rw [(rfl : tbm_map "Web" = none)] at htm
      exact Option.noConfusion htm

/-- C5 witness: the theorem applied at a concrete Videos record, plus the
fully evaluated URL fragment. -/
theorem c5_url_q_and_tbm_witness :
    update_preview c5wRecord = "q=" ++ quote_plus c5wRecord.build_query ++ "&tbm=vid" ∧
    update_preview c5wRecord = "q=hello+world&tbm=vid" := by
  refine ⟨(c5_url_q_and_tbm c5wRecord (by decide)).2.1 rfl, ?_⟩
  decide

/-- C10: two records that differ only in `specific_color` produce the same
preview URL whenever the colour filter is not `Specific color`. -/
theorem c10_specific_color_noninterference (p : SearchParts) (c : String)
    (h : p.color_filter ≠ "Specific color") :
    update_preview { p with specific_color := c } = update_preview p := by
  have hb : SearchParts.build_query { p with specific_color := c } = p.build_query := rfl
  have htb := tbs_parts_ignores_specific_color p c h
  simp only [update_preview, hb, htb]

/-- C10 witness: the theorem applied at a concrete record, plus both evaluated
previews. -/
theorem c10_specific_color_noninterference_witness :
    update_preview { c10wRecord with specific_color := "Blue" } = update_preview c10wRecord ∧
    update_preview c10wRecord = "q=sunset&tbm=isch&tbs=ic:color" := by
  refine ⟨c10_specific_color_noninterference c10wRecord "Blue" (by decide), ?_⟩
  decide

/-- C2 (bug witness): the record with `all_words = "50%"` generates the
non-empty query `"50%"`, yet writing the saved store to disk fails:
`ConfigParser`'s `BasicInterpolation.before_set` raises `ValueError` on the
stray `%`, `_write_recent_to_disk` swallows the exception and the file is
never (re)written, so reloading from disk cannot reproduce the record. -/
theorem c2_percent_round_trip_fails :
    c2FailRecord.build_query = "50%" ∧
    writeRecentFile (saveRecent [] c2FailRecord) = none := by decide

theorem head?_take_succ (a : RecentEntry) (l : List RecentEntry) (n : Nat) (hn : 0 < n) :
    ((a :: l).take n).head? = some a := by
  cases n with
  | zero => exact absurd hn (by decide)
  | succ m => rw [List.take_succ_cons]; rfl

theorem filter_take_eq_singleton (q : String) (a : RecentEntry) (l : List RecentEntry)
    (n : Nat) (ha : a.query = q) (hl : ∀ e ∈ l, e.query ≠ q) (hn : 0 < n) :
    ((a :: l).take n).filter (fun e => e.query == q) = [a] := by
  cases n with
  | zero => exact absurd hn (by decide)
  | succ m =>
    rw [List.take_succ_cons, List.filter_cons]
    simp only [ha, beq_self_eq_true, if_true, ite_true]
    have : (l.take m).filter (fun e => e.query == q) = [] := by
      rw [List.filter_eq_nil]
      intro e he
      have := hl e (List.take_subset m l he)
      simpa using this
    rw [this]

/-- C3: saving a record with a non-empty query drops any entry with an
identical query string, inserts the new entry at position 0 and truncates to
`MAX_RECENT (= 20)` entries; saving two records generating the same query
leaves exactly one entry for that query, the most recent one, at
position 0. -/
theorem c3_save_dedupe_truncate (recent : List RecentEntry) (p p' : SearchParts)
    (h : p.build_query ≠ "") (h' : p'.build_query = p.build_query) :
    saveRecent recent p =
      ((⟨p.build_query, partsDict p⟩ : RecentEntry) ::
        recent.filter (fun e => e.query != p.build_query)).take MAX_RECENT ∧
    (saveRecent recent p).length ≤ MAX_RECENT ∧
    (saveRecent (saveRecent recent p') p).filter (fun e => e.query == p.build_query) =
      [⟨p.build_query, partsDict p⟩] ∧
    (saveRecent (saveRecent recent p') p).head? =
      some ⟨p.build_query, partsDict p⟩ := by
  have hdef : ∀ r : List RecentEntry,
      saveRecent r p =
        ((⟨p.build_query, partsDict p⟩ : RecentEntry) ::
          r.filter (fun e => e.query != p.build_query)).take MAX_RECENT := by
    intro r
    unfold saveRecent
    rw [if_neg h]
  refine ⟨hdef recent, ?_, ?_, ?_⟩
  · rw [hdef recent]
    exact List.length_take_le _ _
  · rw [hdef (saveRecent recent p')]
    refine filter_take_eq_singleton _ _ _ _ rfl ?_ (by decide)
    intro e he
    have := (List.mem_filter.mp he).2
    simpa using this
  · rw [hdef (saveRecent recent p')]
    exact head?_take_succ _ _ _ (by decide)

/-- C3 witness: the theorem applied at the empty store with the same concrete
record saved twice (the two saves generate the same query). -/
theorem c3_save_dedupe_truncate_witness :
    (saveRecent (saveRecent [] c3wRecord) c3wRecord).filter
        (fun e => e.query == c3wRecord.build_query) =
      [⟨c3wRecord.build_query, partsDict c3wRecord⟩] ∧
    (saveRecent (saveRecent [] c3wRecord) c3wRecord).head? =
      some ⟨c3wRecord.build_query, partsDict c3wRecord⟩ :=
  ⟨(c3_save_dedupe_truncate [] c3wRecord c3wRecord (by decide) rfl).2.2.1,
   (c3_save_dedupe_truncate [] c3wRecord c3wRecord (by decide) rfl).2.2.2⟩

/-- C9: a missing recent file loads as the empty list and writes an empty
file; an existing file whose read/parse fails loads as the empty list (and
writes nothing), rather than failing. -/
theorem c9_load_recovery (sect : List (String × String))
    (hf : parseRecent sect = none) :
    load_recent_from_disk none = ([], some []) ∧
    load_recent_from_disk (some sect) = ([], none) := by
  refine ⟨rfl, ?_⟩
  simp only [load_recent_from_disk, hf]

/-- C9 witness: the theorem applied at a concrete malformed file. -/
theorem c9_load_recovery_witness :
    parseRecent c9BadFile = none ∧
    load_recent_from_disk none = ([], some []) ∧
    load_recent_from_disk (some c9BadFile) = ([], none) :=
  ⟨by decide, c9_load_recovery c9BadFile (by decide)⟩
